import Mathlib

/-!
Verification of the request lifecycle and cancellation protocol of the
chat client in `src/main.py`.

The embedding is shallow and faithful to the Python source:

* `OllamaWorker.run` (lines 26-69) becomes the pure function `runW`.  The
  worker's `stop_requested` flag is shared with the foreground thread, so
  its value can change between reads; we model the sequence of values the
  background thread observes as a function `stop : Nat → Bool`, where
  `stop k` is the value returned by the k-th read of the flag (reads are
  numbered 0, 1, 2, ... in program order).  `runW` returns the terminal
  outcome together with the total number of flag reads it performed.
* The `requests` library and Python's `json` module are the environment:
  the network is a function `net : HttpRequest → PostResult` giving the
  final response (or the exception) of `session.post`, and JSON decoding
  is a parameter `jl : String → Except String Json` (Python's
  `json.loads` either returns a value or raises).
  `Response.raise_for_status` raises `HTTPError` exactly for status codes
  400-599; that documented behaviour is modelled concretely.
* `ChatWindow` (the controller) becomes the structure `ChatState` with
  the handlers `handle_send_or_stop`, `start_typing_animation` and
  `type_next_char` as state-transition functions, transcribed line by
  line from `src/main.py` lines 191-248.
-/

/-- Minimal JSON value universe, the shape of what Python's `json.loads`
can return and what the worker builds as its payload. -/
inductive Json where
  | str (s : String)
  | num (n : Int)
  | bool (b : Bool)
  | null
  | arr (elems : List Json)
  | obj (fields : List (String × Json))

/-- Python `data[key]` on a decoded JSON value: returns the field of an
object, and raises (`KeyError` / `TypeError`) otherwise. -/
def Json.lookupField : Json → String → Except String Json
  | .obj fs, key =>
    match fs.lookup key with
    | some v => .ok v
    | none => .error ("KeyError: " ++ key)
  | _, key => .error ("TypeError: value is not subscriptable by " ++ key)

/-- Signal `result_ready` is a `pyqtSignal(str)`: emitting a non-string value
raises `TypeError`, which the worker's `except` block catches. -/
def Json.asEmittedString : Json → Except String String
  | .str s => .ok s
  | _ => .error "TypeError: result signal expects a string"

/-- The expression `data["message"]["content"]` at line 65 of
`src/main.py`, evaluated for emission on the string-typed signal. -/
def extractContent (data : Json) : Except String String :=
  match data.lookupField "message" with
  | .error e => .error e
  | .ok m =>
    match m.lookupField "content" with
    | .error e => .error e
    | .ok c => c.asEmittedString

/-- Module-level constant `MODEL_NAME` (line 12 of `src/main.py`). -/
def MODEL_NAME : String := "deepseek-r1:32b"

/-- Module-level constant `OLLAMA_URL` (line 13 of `src/main.py`). -/
def OLLAMA_URL : String := "http://localhost:11434/api/chat"

/-- The request body built at lines 31-35 of `src/main.py`. -/
def payload (prompt : String) : Json :=
  .obj [("model", .str MODEL_NAME),
        ("messages", .arr [.obj [("role", .str "user"),
                                 ("content", .str prompt)]]),
        ("stream", .bool false)]

/-- The single outbound HTTP request, as configured by the
`session.post` call at lines 38-43 of `src/main.py`. -/
structure HttpRequest where
  method : String
  url : String
  body : Json
  stream : Bool
  timeoutSeconds : Nat
  chunkSize : Nat

/-- The request the worker issues for a given prompt: a POST to
`OLLAMA_URL` with the JSON payload, `stream=True`, `timeout=600`
seconds, body read in chunks of 1024 bytes (`iter_content`, line 54). -/
def workerRequest (prompt : String) : HttpRequest :=
  { method := "POST"
    url := OLLAMA_URL
    body := payload prompt
    stream := true
    timeoutSeconds := 600
    chunkSize := 1024 }

/-- The final response delivered by `session.post` (after the `requests`
library resolved any redirects): either an exception (connection
refused, DNS failure, timeout, ...) carrying its message, or a response
with a status code and a body delivered as a list of chunks. -/
structure HttpResp where
  status : Nat
  chunks : List String

/-- Result of the `session.post` call itself. -/
inductive PostResult where
  | fail (msg : String)
  | resp (r : HttpResp)

/-- Terminal outcome of one run of the worker: `result_ready` emitted,
`error` emitted, or silent return (no signal at all). -/
inductive Outcome where
  | result (s : String)
  | error (msg : String)
  | silent
deriving DecidableEq

/-- Holds (`true`) iff the outcome is an `error` emission. -/
def Outcome.isError : Outcome → Bool
  | .error _ => true
  | _ => false

/-- Message of `str(HTTPError)` produced by `raise_for_status`. -/
def httpErrorMsg (status : Nat) : String :=
  toString status ++ " Error for url " ++ OLLAMA_URL

/-- The chunk loop at lines 53-59 of `src/main.py`.  `k` is the index of
the next flag read.  For each yielded chunk the loop first reads
`stop_requested` and, if it is set, closes the response and returns
(modelled by `none`); otherwise non-empty chunks are accumulated.
Returns the index after the last read together with the accumulated
body (`some`), or `none` when the loop exited through cancellation. -/
def readChunks (stop : Nat → Bool) : Nat → List String → Nat × Option String
  | k, [] => (k, some "")
  | k, c :: cs =>
    if stop k then (k + 1, none)
    else
      match readChunks stop (k + 1) cs with
      | (n, none) => (n, none)
      | (n, some rest) => (n, some (c ++ rest))

/-- Function `OllamaWorker.run` (lines 26-69 of `src/main.py`).  Returns the
terminal outcome and the total number of reads of `stop_requested`
performed.  Reads happen, in program order, at: line 27 (before issuing
the call), line 46 (after headers arrive), line 55 (once per chunk),
line 64 (before emitting the result), and line 68 (inside the `except`
handler, before emitting an error). -/
def runW (prompt : String) (stop : Nat → Bool)
    (jl : String → Except String Json)
    (net : HttpRequest → PostResult) : Outcome × Nat :=
  -- line 27: if self.stop_requested: return
  if stop 0 then (.silent, 1)
  else
    match net (workerRequest prompt) with
    | .fail msg =>
      -- the post call raised; except handler, line 68
      if stop 1 then (.silent, 2) else (.error msg, 2)
    | .resp r =>
      -- line 46: if stopped before headers arrive
      if stop 1 then (.silent, 2)
      else
        -- line 50: r.raise_for_status(), raises for 400 <= status < 600
        if 400 ≤ r.status ∧ r.status < 600 then
          if stop 2 then (.silent, 3) else (.error (httpErrorMsg r.status), 3)
        else
          match readChunks stop 2 r.chunks with
          | (n, none) => (.silent, n)
          | (n, some body) =>
            -- lines 61-62: decode and json.loads
            match jl body with
            | .error msg =>
              if stop n then (.silent, n + 1) else (.error msg, n + 1)
            | .ok data =>
              -- line 64: if not self.stop_requested
              if stop n then (.silent, n + 1)
              else
                match extractContent data with
                | .error msg =>
                  if stop (n + 1) then (.silent, n + 2)
                  else (.error msg, n + 2)
                | .ok c => (.result c, n + 1)

/-! ## The controller: `ChatWindow` (lines 118-248 of `src/main.py`) -/

/-- One chat bubble: its displayed text and its sender tag. -/
structure Bubble where
  text : String
  sender : String
deriving DecidableEq

/-- The mutable state of an `OllamaWorker` object as seen from the
foreground thread: its prompt (set in `__init__`), the `stop_requested`
flag, whether its `requests.Session` is still open, and whether its
thread `isRunning()`. -/
structure Worker where
  prompt : String
  stop_requested : Bool
  session_open : Bool
  running : Bool
deriving DecidableEq

/-- Method `OllamaWorker.stop` (lines 71-77): sets the cancellation flag and
closes the session, forcing any ongoing request to abort. -/
def Worker.stop (w : Worker) : Worker :=
  { w with stop_requested := true, session_open := false }

/-- The foreground-thread state of `ChatWindow` relevant to the request
lifecycle: the bubble list, the input line, the current worker (if any),
the `ai_thinking` flag, the typing-animation timer state
(`typing_active` models whether `typing_timer` is running),
`pending_text`, `typing_index`, `current_bubble` (the index of the
bubble bound to `current_bubble_label`, if set), and the send button's
icon. -/
structure ChatState where
  bubbles : List Bubble
  input_line : String
  ai_worker : Option Worker
  ai_thinking : Bool
  typing_active : Bool
  pending_text : String
  typing_index : Nat
  current_bubble : Option Nat
  send_icon : String
deriving DecidableEq

/-- Models `setText` on the text label of bubble `i` (out-of-range leaves the
list unchanged; in the source the reference is always valid). -/
def setBubbleText (bs : List Bubble) (i : Nat) (t : String) : List Bubble :=
  match bs.get? i with
  | some b => bs.set i { b with text := t }
  | none => bs

/-- Method `ChatWindow.add_bubble` (lines 184-189), restricted to the state it
changes: appends a bubble to the conversation. -/
def add_bubble (st : ChatState) (text sender : String) : ChatState :=
  { st with bubbles := st.bubbles ++ [{ text := text, sender := sender }] }

/-- Python's `str.strip()` with no argument: removes leading and
trailing whitespace.  (Defined by structural recursion on the character
list so that concrete states evaluate inside the kernel.) -/
def pyStrip (s : String) : String :=
  ⟨((s.data.dropWhile Char.isWhitespace).reverse.dropWhile
      Char.isWhitespace).reverse⟩

/-- Method `ChatWindow.handle_send_or_stop` (lines 191-217), the single handler
for both the send button and the return key.

While `ai_thinking` (busy): stops the worker if it is running, stops the
typing timer, completes the current bubble's text to `pending_text`,
clears `ai_thinking`, and restores the send icon.

Otherwise (idle): strips the input line; if nothing remains, returns
with no change at all; else adds the user bubble, clears the input, and
creates and starts a fresh worker for the stripped message. -/
def handle_send_or_stop (st : ChatState) : ChatState :=
  if st.ai_thinking then
    let st1 : ChatState :=
      match st.ai_worker with
      | some w => if w.running then { st with ai_worker := some w.stop } else st
      | none => st
    let st2 : ChatState := { st1 with typing_active := false }
    let st3 : ChatState :=
      match st2.current_bubble with
      | some i =>
        { st2 with bubbles := setBubbleText st2.bubbles i st2.pending_text }
      | none => st2
    { st3 with ai_thinking := false, send_icon := "send" }
  else
    let msg := pyStrip st.input_line
    if msg = "" then st
    else
      let st1 := add_bubble st msg "User"
      let st2 : ChatState := { st1 with input_line := "" }
      { st2 with
        ai_worker := some { prompt := msg, stop_requested := false,
                            session_open := true, running := true },
        ai_thinking := true,
        send_icon := "stop" }

/-- Method `ChatWindow.start_typing_animation` (lines 219-234), the slot
connected to the worker's `result_ready` signal.  On an empty result it
only clears `ai_thinking` and restores the send icon; otherwise it adds
an AI bubble, binds it as the current bubble with empty text, stores the
result as `pending_text`, resets `typing_index` and starts the timer. -/
def start_typing_animation (st : ChatState) (text : String) : ChatState :=
  if text = "" then
    { st with ai_thinking := false, send_icon := "send" }
  else
    let st1 := add_bubble st "..." "AI"
    let i := st1.bubbles.length - 1
    let st2 : ChatState :=
      { st1 with current_bubble := some i
                 pending_text := text
                 typing_index := 0 }
    let st3 : ChatState :=
      { st2 with bubbles := setBubbleText st2.bubbles i "" }
    { st3 with typing_active := true }

/-- Method `ChatWindow.type_next_char` (lines 236-248), the timer tick: appends
the next character of `pending_text` to the current bubble, or, when
done, stops the timer, clears `ai_thinking` and restores the icon. -/
def type_next_char (st : ChatState) : ChatState :=
  if st.typing_index < st.pending_text.length then
    match st.current_bubble with
    | some i =>
      let c := st.pending_text.data.getD st.typing_index ' '
      let old := (st.bubbles.get? i).map Bubble.text |>.getD ""
      { st with
        bubbles := setBubbleText st.bubbles i (old.push c)
        typing_index := st.typing_index + 1 }
    | none => st
  else
    { st with typing_active := false, ai_thinking := false,
              send_icon := "send" }

/-- The externally visible part of the controller state: the rendered
bubbles, the input line, the send-button icon, and the busy/animation
flags that drive what the user sees. The worker object itself is
background state. -/
def visibleProj (st : ChatState) :
    List Bubble × String × String × Bool × Bool :=
  (st.bubbles, st.input_line, st.send_icon, st.ai_thinking,
   st.typing_active)

/-! ## Lemmas about the chunk loop -/

/-- The flag-read counter never decreases across the chunk loop. -/
theorem readChunks_le (stop : Nat → Bool) (cs : List String) (k : Nat) :
    k ≤ (readChunks stop k cs).1 := by
  induction cs generalizing k with
  | nil => simp [readChunks]
  | cons c cs ih =>
    simp only [readChunks]
    split
    · simp
    · have h := ih (k + 1)
      rcases hr : readChunks stop (k + 1) cs with ⟨n, ob⟩
      rw [hr] at h
      cases ob <;> simp at h ⊢ <;> omega

/-- If the chunk loop ran to completion, every flag read it performed
returned `false`. -/
theorem readChunks_some_false (stop : Nat → Bool) (cs : List String) :
    ∀ k n b, readChunks stop k cs = (n, some b) →
      ∀ j, k ≤ j → j < n → stop j = false := by
  induction cs with
  | nil =>
    intro k n b h j hkj hjn
    simp [readChunks] at h
    omega
  | cons c cs ih =>
    intro k n b h j hkj hjn
    simp only [readChunks] at h
    by_cases hs : stop k
    · simp [hs] at h
    · simp only [hs, if_false, Bool.false_eq_true] at h
      rcases hr : readChunks stop (k + 1) cs with ⟨n', ob⟩
      rw [hr] at h
      cases ob with
      | none => simp at h
      | some rest =>
        simp at h
        obtain ⟨rfl, -⟩ := h
        rcases Nat.eq_or_lt_of_le hkj with rfl | hlt
        · simpa using hs
        · exact ih (k + 1) n' rest hr j hlt hjn

/-- C1: for every execution of the worker's run operation, if the
cancellation flag `stop_requested` is set before run starts (read 0) or
is observed set at any of the flag reads the run actually performs
(before issuing the call, after headers arrive, after each chunk,
before emitting), then run emits neither a result nor an error: the
only outcome is silent termination. -/
theorem run_cancel_observed_silent (prompt : String) (stop : Nat → Bool)
    (jl : String → Except String Json) (net : HttpRequest → PostResult)
    (k : Nat) (hk : stop k = true) :
    k < (runW prompt stop jl net).2 →
    (runW prompt stop jl net).1 = Outcome.silent := by
  unfold runW
  split
  · intro _; rfl
  next h0 =>
    split
    next msg heq =>
      split
      · intro _; rfl
      next h1 =>
        intro hlt
        have hlt2 : k < 2 := hlt
        exfalso
        have hk01 : k = 0 ∨ k = 1 := by omega
        rcases hk01 with rfl | rfl
        · exact h0 hk
        · exact h1 hk
    next r heq =>
      split
      · intro _; rfl
      next h1 =>
        split
        next hst =>
          split
          · intro _; rfl
          next h2 =>
            intro hlt
            have hlt2 : k < 3 := hlt
            exfalso
            have hk012 : k = 0 ∨ k = 1 ∨ k = 2 := by omega
            rcases hk012 with rfl | rfl | rfl
            · exact h0 hk
            · exact h1 hk
            · exact h2 hk
        next hst =>
          split
          · intro _; rfl
          next n body heq2 =>
            have hn2 : 2 ≤ n := by
              have h := readChunks_le stop r.chunks 2
              rw [heq2] at h
              exact h
            have hmid := readChunks_some_false stop r.chunks 2 n body heq2
            split
            next msg heq3 =>
              split
              · intro _; rfl
              next hn =>
                intro hlt
                have hlt2 : k < n + 1 := hlt
                exfalso
                rcases Nat.lt_or_ge k 2 with hc | hc
                · have hk01 : k = 0 ∨ k = 1 := by omega
                  rcases hk01 with rfl | rfl
                  · exact h0 hk
                  · exact h1 hk
                · rcases Nat.lt_or_ge k n with hc2 | hc2
                  · have hf := hmid k hc hc2
                    rw [hf] at hk
                    exact Bool.false_ne_true hk
                  · have hkn : k = n := by omega
                    subst hkn
                    exact hn hk
            next data heq3 =>
              split
              · intro _; rfl
              next hn =>
                split
                next msg heq4 =>
                  split
                  · intro _; rfl
                  next hn1 =>
                    intro hlt
                    have hlt2 : k < n + 2 := hlt
                    exfalso
                    rcases Nat.lt_or_ge k 2 with hc | hc
                    · have hk01 : k = 0 ∨ k = 1 := by omega
                      rcases hk01 with rfl | rfl
                      · exact h0 hk
                      · exact h1 hk
                    · rcases Nat.lt_or_ge k n with hc2 | hc2
                      · have hf := hmid k hc hc2
                        rw [hf] at hk
                        exact Bool.false_ne_true hk
                      · have hkn : k = n ∨ k = n + 1 := by omega
                        rcases hkn with rfl | hkn1
                        · exact hn hk
                        · subst hkn1
                          exact hn1 hk
                next c heq4 =>
                  intro hlt
                  have hlt2 : k < n + 1 := hlt
                  exfalso
                  rcases Nat.lt_or_ge k 2 with hc | hc
                  · have hk01 : k = 0 ∨ k = 1 := by omega
                    rcases hk01 with rfl | rfl
                    · exact h0 hk
                    · exact h1 hk
                  · rcases Nat.lt_or_ge k n with hc2 | hc2
                    · have hf := hmid k hc hc2
                      rw [hf] at hk
                      exact Bool.false_ne_true hk
                    · have hkn : k = n := by omega
                      subst hkn
                      exact hn hk

/-- Concatenation of the accumulated chunks, as `b"".join(chunks)` at
line 61 produces it. -/
def joinAll (cs : List String) : String :=
  cs.foldr (fun a b => a ++ b) ""

/-- With the cancellation flag never observed set, the chunk loop runs
to completion: it performs one read per chunk and accumulates the whole
body. -/
theorem readChunks_all_false (stop : Nat → Bool)
    (h : ∀ j, stop j = false) :
    ∀ cs k, readChunks stop k cs = (k + cs.length, some (joinAll cs)) := by
  intro cs
  induction cs with
  | nil => intro k; simp [readChunks, joinAll]
  | cons c cs ih =>
    intro k
    simp only [readChunks, h k, Bool.false_eq_true, if_false, ih (k + 1),
      joinAll, List.foldr_cons, List.length_cons]
    have harith : k + 1 + cs.length = k + (cs.length + 1) := by omega
    rw [harith]

/-- The flag sequence of a run during which cancellation is never
requested. -/
def stopOff : Nat → Bool := fun _ => false

/-- The flag sequence of a run cancelled before it starts. -/
def stopOn : Nat → Bool := fun _ => true

/-- A `json.loads` that rejects every body (as it does, e.g., for an
empty or truncated body). -/
def jlReject : String → Except String Json := fun _ =>
  Except.error "Expecting value: line 1 column 1 (char 0)"

/-- A network on which the `post` call itself raises. -/
def netRefused : HttpRequest → PostResult := fun _ =>
  PostResult.fail "Connection refused"

/-- Witness for C1: a run cancelled before it starts (read 0 returns
`true`) terminates silently. -/
theorem run_cancel_observed_silent_witness :
    stopOn 0 = true ∧
    0 < (runW "hi" stopOn jlReject netRefused).2 ∧
    (runW "hi" stopOn jlReject netRefused).1 = Outcome.silent :=
  ⟨rfl, by decide,
   run_cancel_observed_silent "hi" stopOn jlReject netRefused 0 rfl
     (by decide)⟩

/-- C4 (amended): for every failure during a non-cancelled request —
the `post` call raising (connection failure, DNS failure, timeout), an
HTTP status in 400-599 (`raise_for_status`), a body `json.loads`
rejects, or a present body whose `message`/`content` field is absent or
not a string — the outcome is an `error` emission carrying a message
string.  (`runW` is a total function: every exception is converted to
an outcome at the request boundary, so nothing escapes to the
foreground thread.)  The amendment relative to the spec: the trigger is
a 4xx/5xx status, not every non-2xx status — `raise_for_status` does
not raise for statuses below 400, see
`run_non2xx_success_counterexample`. -/
theorem run_failure_emits_error (prompt : String) (stop : Nat → Bool)
    (jl : String → Except String Json) (net : HttpRequest → PostResult)
    (hstop : ∀ j, stop j = false) :
    (∀ msg, net (workerRequest prompt) = PostResult.fail msg →
      (runW prompt stop jl net).1 = Outcome.error msg) ∧
    (∀ r, net (workerRequest prompt) = PostResult.resp r →
      400 ≤ r.status → r.status < 600 →
      (runW prompt stop jl net).1 = Outcome.error (httpErrorMsg r.status)) ∧
    (∀ r msg, net (workerRequest prompt) = PostResult.resp r →
      r.status < 400 →
      jl (joinAll r.chunks) = Except.error msg →
      (runW prompt stop jl net).1 = Outcome.error msg) ∧
    (∀ r data msg, net (workerRequest prompt) = PostResult.resp r →
      r.status < 400 →
      jl (joinAll r.chunks) = Except.ok data →
      extractContent data = Except.error msg →
      (runW prompt stop jl net).1 = Outcome.error msg) := by
  refine ⟨?_, ?_, ?_, ?_⟩
  · intro msg hnet
    simp [runW, hstop 0, hstop 1, hnet]
  · intro r hnet h4 h6
    simp [runW, hstop 0, hstop 1, hstop 2, hnet, h4, h6]
  · intro r msg hnet h4 hjl
    have hnot : ¬(400 ≤ r.status ∧ r.status < 600) := by omega
    simp [runW, hstop 0, hstop 1, hnet, hnot,
      readChunks_all_false stop hstop r.chunks 2, hjl,
      hstop (2 + r.chunks.length)]
  · intro r data msg hnet h4 hjl hex
    have hnot : ¬(400 ≤ r.status ∧ r.status < 600) := by omega
    simp [runW, hstop 0, hstop 1, hnet, hnot,
      readChunks_all_false stop hstop r.chunks 2, hjl, hex,
      hstop (2 + r.chunks.length), hstop (2 + r.chunks.length + 1)]

/-- The documented response envelope with content `c`. -/
def envelope (c : String) : Json :=
  Json.obj [("message", Json.obj [("content", Json.str c)])]

/-- The serialized envelope for content `hello`, i.e. the body
`{"message":{"content":"hello"}}` (braces escaped). -/
def goodBody : String :=
  "\x7b\"message\":\x7b\"content\":\"hello\"\x7d\x7d"

/-- A `json.loads` that decodes `goodBody` to its envelope and rejects
everything else. -/
def jlMock : String → Except String Json := fun s =>
  if s = goodBody then Except.ok (envelope "hello")
  else Except.error "Expecting value: line 1 column 1 (char 0)"

/-- A mocked endpoint answering with status 300 and body `goodBody`. -/
def net300 : HttpRequest → PostResult := fun _ =>
  PostResult.resp { status := 300, chunks := [goodBody] }

/-- A mocked endpoint answering with status 200 and body `goodBody`. -/
def net200 : HttpRequest → PostResult := fun _ =>
  PostResult.resp { status := 200, chunks := [goodBody] }

/-- Counterexample to C4 as stated: a non-cancelled request answered
with the non-2xx status 300 (which `raise_for_status` does not raise
for) and a well-formed body does not produce an Error outcome — it
produces the result `hello`. -/
theorem run_non2xx_success_counterexample :
    net300 (workerRequest "hi") =
      PostResult.resp { status := 300, chunks := [goodBody] } ∧
    ¬(200 ≤ 300 ∧ 300 < 300) ∧
    (runW "hi" stopOff jlMock net300).1 = Outcome.result "hello" ∧
    Outcome.isError (runW "hi" stopOff jlMock net300).1 = false := by
  refine ⟨rfl, by omega, ?_, ?_⟩ <;> decide

/-- Witness for C4 (amended), on the connection-failure case: with no
cancellation and a `post` call that raises, the outcome is an error
emission. -/
theorem run_failure_emits_error_witness :
    (∀ j, stopOff j = false) ∧
    netRefused (workerRequest "hi") = PostResult.fail "Connection refused" ∧
    (runW "hi" stopOff jlReject netRefused).1 =
      Outcome.error "Connection refused" :=
  ⟨fun _ => rfl, rfl,
   (run_failure_emits_error "hi" stopOff jlReject netRefused
     (fun _ => rfl)).1 "Connection refused" rfl⟩

/-- C5: for every endpoint response delivered with a success status
whose body is the JSON envelope with string content `c`, a
non-cancelled run emits the result `c`. -/
theorem run_success_roundtrip (prompt : String) (stop : Nat → Bool)
    (jl : String → Except String Json) (net : HttpRequest → PostResult)
    (r : HttpResp) (c : String)
    (hstop : ∀ j, stop j = false)
    (hnet : net (workerRequest prompt) = PostResult.resp r)
    (hst : r.status = 200)
    (hjl : jl (joinAll r.chunks) = Except.ok (envelope c)) :
    (runW prompt stop jl net).1 = Outcome.result c := by
  have hnot : ¬(400 ≤ r.status ∧ r.status < 600) := by omega
  simp [runW, hstop 0, hstop 1, hnet, hnot,
    readChunks_all_false stop hstop r.chunks 2, hjl,
    hstop (2 + r.chunks.length), extractContent, envelope,
    Json.lookupField, Json.asEmittedString]

/-- Witness for C5: the round trip of the spec — against a mocked
endpoint returning status 200 with body `goodBody`, submitting `hi`
yields the result `hello`. -/
theorem run_success_roundtrip_witness :
    (∀ j, stopOff j = false) ∧
    net200 (workerRequest "hi") =
      PostResult.resp { status := 200, chunks := [goodBody] } ∧
    jlMock (joinAll [goodBody]) = Except.ok (envelope "hello") ∧
    (runW "hi" stopOff jlMock net200).1 = Outcome.result "hello" :=
  ⟨fun _ => rfl, rfl, rfl,
   run_success_roundtrip "hi" stopOff jlMock net200
     { status := 200, chunks := [goodBody] } "hello"
     (fun _ => rfl) rfl rfl rfl⟩

/-- C8: for every prompt `p`, the worker issues a single HTTP POST to
the configured URL whose JSON body is exactly the object with fields
`model = MODEL_NAME`, `messages = [ (role = user, content = p) ]` and
`stream = false`, with a 600-second (ten-minute) timeout, opened in
streaming mode and read incrementally in 1024-byte chunks.  The final
conjunct shows the run consults the network only through its answer to
this one request, so exactly one request is issued per run. -/
theorem worker_request_shape (p : String) :
    (workerRequest p).method = "POST" ∧
    (workerRequest p).url = OLLAMA_URL ∧
    (workerRequest p).body =
      Json.obj [("model", Json.str MODEL_NAME),
                ("messages", Json.arr [Json.obj [("role", Json.str "user"),
                                                 ("content", Json.str p)]]),
                ("stream", Json.bool false)] ∧
    (workerRequest p).timeoutSeconds = 10 * 60 ∧
    (workerRequest p).stream = true ∧
    (workerRequest p).chunkSize = 1024 ∧
    (∀ (stop : Nat → Bool) (jl : String → Except String Json)
       (net net' : HttpRequest → PostResult),
       net (workerRequest p) = net' (workerRequest p) →
       runW p stop jl net = runW p stop jl net') := by
  refine ⟨rfl, rfl, rfl, rfl, rfl, rfl, ?_⟩
  intro stop jl net net' h
  unfold runW
  rw [h]

/-- Witness for C8 at the prompt `hi`, with the single-request conjunct
discharged on a pair of networks agreeing on the worker's request. -/
theorem worker_request_shape_witness :
    (workerRequest "hi").body =
      Json.obj [("model", Json.str MODEL_NAME),
                ("messages", Json.arr [Json.obj [("role", Json.str "user"),
                                                 ("content", Json.str "hi")]]),
                ("stream", Json.bool false)] ∧
    runW "hi" stopOff jlMock net200 = runW "hi" stopOff jlMock net200 :=
  ⟨(worker_request_shape "hi").2.2.1,
   (worker_request_shape "hi").2.2.2.2.2.2 stopOff jlMock net200 net200 rfl⟩

/-! ## Controller lemmas and claims -/

/-- Completing a bubble's text never changes the number of bubbles. -/
theorem setBubbleText_length (bs : List Bubble) (i : Nat) (t : String) :
    (setBubbleText bs i t).length = bs.length := by
  unfold setBubbleText
  split
  · simp
  · rfl

/-- Completing bubble `i`'s text makes its text `t` (when `i` is in
range). -/
theorem setBubbleText_get (bs : List Bubble) (i : Nat) (t : String)
    (hlt : i < bs.length) :
    ((setBubbleText bs i t).get? i).map Bubble.text = some t := by
  unfold setBubbleText
  rcases hbs : bs.get? i with _ | b
  · rw [List.get?_eq_none] at hbs
    omega
  · simp [List.get?_eq_getElem?, List.getElem?_set_eq_of_lt _ hlt]

/-- C7: while idle, submitting an input line that is empty or
whitespace-only is a complete no-op: the state is returned unchanged —
no worker is created, no bubble is added, the input line is not even
cleared. -/
theorem submit_blank_noop (st : ChatState)
    (hidle : st.ai_thinking = false)
    (hblank : pyStrip st.input_line = "") :
    handle_send_or_stop st = st := by
  simp [handle_send_or_stop, hidle, hblank]

/-- A concrete idle controller state with a whitespace-only input. -/
def idleState : ChatState :=
  { bubbles := []
    input_line := "   "
    ai_worker := none
    ai_thinking := false
    typing_active := false
    pending_text := ""
    typing_index := 0
    current_bubble := none
    send_icon := "send" }

/-- Witness for C7 on a whitespace-only input line. -/
theorem submit_blank_noop_witness :
    idleState.ai_thinking = false ∧ pyStrip idleState.input_line = "" ∧
    handle_send_or_stop idleState = idleState :=
  ⟨rfl, by decide, submit_blank_noop idleState rfl (by decide)⟩

/-- C10: for every idle state whose input line has at least one
non-whitespace character, the send handler shows the *stripped* text in
the user's bubble, hands the *stripped* text to the worker as the
prompt, and the request body's content field is that stripped text —
not the raw input. -/
theorem submit_strips_whitespace (st : ChatState)
    (hidle : st.ai_thinking = false)
    (hne : pyStrip st.input_line ≠ "") :
    (handle_send_or_stop st).bubbles =
      st.bubbles ++ [{ text := pyStrip st.input_line, sender := "User" }] ∧
    (handle_send_or_stop st).ai_worker =
      some { prompt := pyStrip st.input_line, stop_requested := false,
             session_open := true, running := true } ∧
    (handle_send_or_stop st).input_line = "" ∧
    (handle_send_or_stop st).ai_thinking = true ∧
    (workerRequest (pyStrip st.input_line)).body =
      Json.obj [("model", Json.str MODEL_NAME),
                ("messages", Json.arr [Json.obj [("role", Json.str "user"),
                  ("content", Json.str (pyStrip st.input_line))]]),
                ("stream", Json.bool false)] := by
  refine ⟨?_, ?_, ?_, ?_, rfl⟩ <;>
    simp [handle_send_or_stop, hidle, hne, add_bubble]

/-- A concrete idle state whose input has surrounding whitespace. -/
def idlePadded : ChatState :=
  { idleState with input_line := "  hi  " }

/-- Witness for C10: the input with surrounding blanks becomes the
stripped prompt and bubble text `hi`. -/
theorem submit_strips_whitespace_witness :
    idlePadded.ai_thinking = false ∧
    pyStrip idlePadded.input_line ≠ "" ∧
    (handle_send_or_stop idlePadded).bubbles =
      idlePadded.bubbles ++ [{ text := pyStrip idlePadded.input_line,
                               sender := "User" }] ∧
    (handle_send_or_stop idlePadded).ai_worker =
      some { prompt := "hi", stop_requested := false,
             session_open := true, running := true } :=
  ⟨rfl, by decide,
   (submit_strips_whitespace idlePadded rfl (by decide)).1,
   ((submit_strips_whitespace idlePadded rfl (by decide)).2.1.trans
     (by decide))⟩

/-- C3: invoking the button while busy with the worker thread running
(cancel) sets the worker's cancellation flag, closes its session —
forcibly terminating the underlying connection — and flips the
controller to idle (`ai_thinking = false`, send icon restored) in the
same synchronous handler invocation; `handle_send_or_stop` consumes no
outcome from the worker, so it does not wait for the request's terminal
outcome. -/
theorem cancel_busy_stops_worker (st : ChatState) (w : Worker)
    (hbusy : st.ai_thinking = true)
    (hw : st.ai_worker = some w)
    (hrun : w.running = true) :
    (handle_send_or_stop st).ai_worker =
      some { prompt := w.prompt, stop_requested := true,
             session_open := false, running := w.running } ∧
    (handle_send_or_stop st).ai_thinking = false ∧
    (handle_send_or_stop st).send_icon = "send" := by
  cases hcb : st.current_bubble <;>
    simp [handle_send_or_stop, hbusy, hw, hrun, hcb, Worker.stop]

/-- A concrete busy state: one user bubble shown, the worker running,
no response delivered yet. -/
def busyState : ChatState :=
  { bubbles := [{ text := "hi", sender := "User" }]
    input_line := ""
    ai_worker := some { prompt := "hi", stop_requested := false,
                        session_open := true, running := true }
    ai_thinking := true
    typing_active := false
    pending_text := ""
    typing_index := 0
    current_bubble := none
    send_icon := "stop" }

/-- Witness for C3 on the concrete busy state. -/
theorem cancel_busy_stops_worker_witness :
    busyState.ai_thinking = true ∧
    busyState.ai_worker = some { prompt := "hi", stop_requested := false,
                                 session_open := true, running := true } ∧
    (handle_send_or_stop busyState).ai_worker =
      some { prompt := "hi", stop_requested := true,
             session_open := false, running := true } ∧
    (handle_send_or_stop busyState).ai_thinking = false :=
  ⟨rfl, rfl,
   (cancel_busy_stops_worker busyState _ rfl rfl rfl).1,
   (cancel_busy_stops_worker busyState _ rfl rfl rfl).2.1⟩

/-- Counterexample to C2 as stated: in a busy state, the send/submit
event is *not* state-preserving — the handler treats it as a stop
request, so the state changes (here `ai_thinking` flips to false). -/
theorem submit_busy_unchanged_counterexample :
    busyState.ai_thinking = true ∧
    handle_send_or_stop busyState ≠ busyState := by
  refine ⟨rfl, ?_⟩
  intro h
  have := congrArg ChatState.ai_thinking h
  simp [handle_send_or_stop, busyState] at this

/-- C2 (amended): while busy, invoking the send/submit event never
creates a second request: the typed text is ignored (the input line is
neither read nor cleared), no bubble is added, and the owned worker —
if any — keeps its identity (same prompt, still at most one).  The
amendment relative to the spec: the state is *not* unchanged, because
the same event doubles as the stop button — it transitions the
controller to idle (see `submit_busy_unchanged_counterexample`). -/
theorem submit_busy_no_second_request (st : ChatState)
    (hbusy : st.ai_thinking = true) :
    (handle_send_or_stop st).input_line = st.input_line ∧
    (handle_send_or_stop st).bubbles.length = st.bubbles.length ∧
    Option.map Worker.prompt (handle_send_or_stop st).ai_worker =
      Option.map Worker.prompt st.ai_worker ∧
    ((handle_send_or_stop st).ai_worker).isSome = st.ai_worker.isSome ∧
    (handle_send_or_stop st).ai_thinking = false := by
  cases hw : st.ai_worker with
  | none =>
    cases hcb : st.current_bubble <;>
      simp [handle_send_or_stop, hbusy, hw, hcb, setBubbleText_length]
  | some w =>
    cases hrun : w.running <;> cases hcb : st.current_bubble <;>
      simp [handle_send_or_stop, hbusy, hw, hrun, hcb, Worker.stop,
        setBubbleText_length]

/-- Witness for C2 (amended) on the concrete busy state. -/
theorem submit_busy_no_second_request_witness :
    busyState.ai_thinking = true ∧
    (handle_send_or_stop busyState).input_line = busyState.input_line ∧
    Option.map Worker.prompt (handle_send_or_stop busyState).ai_worker =
      Option.map Worker.prompt busyState.ai_worker ∧
    (handle_send_or_stop busyState).ai_thinking = false :=
  ⟨rfl,
   (submit_busy_no_second_request busyState rfl).1,
   (submit_busy_no_second_request busyState rfl).2.2.1,
   (submit_busy_no_second_request busyState rfl).2.2.2.2⟩

/-- The busy state after the worker finished: its thread is no longer
running, but no outcome has been processed yet. -/
def busyStateDone : ChatState :=
  { busyState with
    ai_worker := some { prompt := "hi", stop_requested := false,
                        session_open := true, running := false } }

/-- The controller state right after the Success outcome `hello` was
emitted and its slot (`start_typing_animation`) ran: the typing
animation is in progress and `ai_thinking` is still true. -/
def afterSuccess : ChatState := start_typing_animation busyStateDone "hello"

/-- Counterexample to C6 as stated: after a Success outcome has been
emitted (and while its typing animation plays), invoking cancel is
*not* a no-op — the handler changes the state (here `typing_active`
flips to false, and with it `ai_thinking`). -/
theorem cancel_after_success_noop_counterexample :
    afterSuccess = start_typing_animation busyStateDone "hello" ∧
    afterSuccess.ai_thinking = true ∧
    handle_send_or_stop afterSuccess ≠ afterSuccess := by
  exact ⟨rfl, rfl, by decide⟩

/-- C6 (amended): invoking cancel after a Success outcome has been
emitted (busy, animation in progress, a current bubble bound) does not
alter or retract the delivered result — the result bubble is
immediately completed to the full pending text, and no bubble is
removed — but it is not a state no-op: it stops the animation and
returns the controller to idle. -/
theorem cancel_after_success_completes_result (st : ChatState) (i : Nat)
    (hbusy : st.ai_thinking = true)
    (hcb : st.current_bubble = some i)
    (hlt : i < st.bubbles.length) :
    ((handle_send_or_stop st).bubbles.get? i).map Bubble.text =
      some st.pending_text ∧
    (handle_send_or_stop st).bubbles.length = st.bubbles.length ∧
    (handle_send_or_stop st).ai_thinking = false ∧
    (handle_send_or_stop st).typing_active = false := by
  cases hw : st.ai_worker with
  | none =>
    simp [handle_send_or_stop, hbusy, hw, hcb, setBubbleText_length]
    simpa using setBubbleText_get st.bubbles i st.pending_text hlt
  | some w =>
    cases hrun : w.running <;>
      simp [handle_send_or_stop, hbusy, hw, hrun, hcb, Worker.stop,
        setBubbleText_length] <;>
      simpa using setBubbleText_get st.bubbles i st.pending_text hlt

/-- Witness for C6 (amended) on the concrete post-Success state: the
bubble ends up showing the full result `hello`. -/
theorem cancel_after_success_completes_result_witness :
    afterSuccess.ai_thinking = true ∧
    afterSuccess.current_bubble = some 1 ∧
    1 < afterSuccess.bubbles.length ∧
    ((handle_send_or_stop afterSuccess).bubbles.get? 1).map Bubble.text =
      some "hello" :=
  ⟨rfl, rfl, by decide,
   (cancel_after_success_completes_result afterSuccess 1 rfl rfl
     (by decide)).1⟩

/-- C9: when a non-cancelled request succeeds with an empty content
string, the `result_ready` slot leaves the bubble list untouched (no AI
bubble), starts no typing animation, and returns the controller to idle
— and on every visible component (bubbles, input line, icon, busy and
animation flags) the resulting state is identical to the one a
cancellation (`handle_send_or_stop` while busy) would have produced
from the same state, so an empty Success is externally
indistinguishable from a cancellation. -/
theorem empty_success_invisible (st : ChatState)
    (hbusy : st.ai_thinking = true)
    (htyping : st.typing_active = false)
    (hcb : st.current_bubble = none) :
    (start_typing_animation st "").bubbles = st.bubbles ∧
    (start_typing_animation st "").typing_active = false ∧
    (start_typing_animation st "").ai_thinking = false ∧
    visibleProj (start_typing_animation st "") =
      visibleProj (handle_send_or_stop st) := by
  refine ⟨rfl, by simp [start_typing_animation, htyping], rfl, ?_⟩
  cases hw : st.ai_worker with
  | none =>
    simp [start_typing_animation, handle_send_or_stop, visibleProj,
      hbusy, htyping, hcb, hw]
  | some w =>
    cases hrun : w.running <;>
      simp [start_typing_animation, handle_send_or_stop, visibleProj,
        hbusy, htyping, hcb, hw, hrun, Worker.stop]

/-- Witness for C9 on the concrete busy state. -/
theorem empty_success_invisible_witness :
    busyState.ai_thinking = true ∧
    busyState.typing_active = false ∧
    busyState.current_bubble = none ∧
    (start_typing_animation busyState "").bubbles = busyState.bubbles ∧
    visibleProj (start_typing_animation busyState "") =
      visibleProj (handle_send_or_stop busyState) :=
  ⟨rfl, rfl, rfl,
   (empty_success_invisible busyState rfl rfl rfl).1,
   (empty_success_invisible busyState rfl rfl rfl).2.2.2⟩
